import Mathlib

/-!
Shallow embedding of the country-rule validation engine of the fintech-credits
repository (`app/utils/document_validator.py` and
`app/services/credit_request_service.py`).

Python strings are modelled as `List Char`.  `str.upper` is modelled by a
character table covering ASCII letters and the Latin accented letters that
occur in the code's document-type labels; all other characters are fixed
points.  Python's `re.match(r'^...$', s)` is modelled faithfully: `$` matches
at the end of the string or just before a single trailing newline
(`matchesDollar`).  Python floats are modelled by exact rationals `ℚ`;
`round(x, 2)` is modelled with Mathlib's `round` (the models differ from
binary floating point only at representation limits and ties, which no
statement below touches).
-/

namespace Fintech

/-- Lower/upper pairs for Python's `str.upper`, restricted to ASCII letters
plus the accented Latin letters appearing in the repository's labels. -/
def upperPairs : List (Char × Char) :=
  [('a','A'), ('b','B'), ('c','C'), ('d','D'), ('e','E'), ('f','F'), ('g','G'),
   ('h','H'), ('i','I'), ('j','J'), ('k','K'), ('l','L'), ('m','M'), ('n','N'),
   ('o','O'), ('p','P'), ('q','Q'), ('r','R'), ('s','S'), ('t','T'), ('u','U'),
   ('v','V'), ('w','W'), ('x','X'), ('y','Y'), ('z','Z'),
   ('á','Á'), ('é','É'), ('í','Í'), ('ó','Ó'), ('ú','Ú'), ('ñ','Ñ'),
   ('ü','Ü'), ('ç','Ç')]

/-- Model of Python's `str.upper` on one character. -/
def pyToUpper (c : Char) : Char :=
  ((upperPairs.find? (fun p => p.1 == c)).map Prod.snd).getD c

/-- Model of Python's `str.upper`. -/
def pyUpper (s : List Char) : List Char := s.map pyToUpper

/-- Characters Python's `str.strip` and the regex class `\s` treat as
whitespace (ASCII part). -/
def isPySpace (c : Char) : Bool :=
  c == ' ' || c == '\t' || c == '\n' || c == '\r' || c == '\x0b' || c == '\x0c'

/-- Model of `str.replace(x, "")` chains: remove every occurrence of the given
characters. -/
def removeAll (bad : List Char) (s : List Char) : List Char :=
  s.filter (fun c => !(bad.contains c))

/-- Model of Python's `str.strip()`. -/
def pyStrip (s : List Char) : List Char :=
  ((s.dropWhile isPySpace).reverse.dropWhile isPySpace).reverse

/-- Numeric value of a digit character. -/
def charToDigit (c : Char) : Nat := c.toNat - 48

/-- Model of Python's `int` on a digit string. -/
def digitsToNat (s : List Char) : Nat :=
  s.foldl (fun n c => 10 * n + charToDigit c) 0

/-- Model of `re.match(r'^core$', s)`: in Python `$` matches at the end of the
string or just before a trailing newline. -/
def matchesDollar (core : List Char → Bool) (s : List Char) : Bool :=
  core s || ((s.getLast? == some '\n') && core s.dropLast)

/-- Core of `^[0-9]{8}[A-Z]$`. -/
def dniPat (l : List Char) : Bool :=
  l.length == 9 && (l.take 8).all Char.isDigit && (l.getD 8 ' ').isUpper

/-- Core of `^[0-9]{9}$`. -/
def nifPat (l : List Char) : Bool :=
  l.length == 9 && l.all Char.isDigit

/-- Core of `^[0-9]{11}$`. -/
def cpfPat (l : List Char) : Bool :=
  l.length == 11 && l.all Char.isDigit

/-- Core of `^[A-Z]{4}[0-9]{6}[HM][A-Z]{5}[0-9A-Z][0-9]$`. -/
def curpPat (l : List Char) : Bool :=
  l.length == 18 &&
  (l.take 4).all Char.isUpper &&
  ((l.drop 4).take 6).all Char.isDigit &&
  (l.getD 10 ' ' == 'H' || l.getD 10 ' ' == 'M') &&
  ((l.drop 11).take 5).all Char.isUpper &&
  ((l.getD 16 ' ').isDigit || (l.getD 16 ' ').isUpper) &&
  (l.getD 17 ' ').isDigit

/-- Core of `^[A-Z0-9]{16}$`. -/
def italyPat (l : List Char) : Bool :=
  l.length == 16 && l.all (fun c => c.isUpper || c.isDigit)

/-- Core of `^[0-9]{8,10}$`. -/
def cedulaPat (l : List Char) : Bool :=
  decide (8 ≤ l.length) && decide (l.length ≤ 10) && l.all Char.isDigit

/-- The fixed DNI check-letter table. -/
def dniLetters : List Char := "TRWAGMYFPDXBNJZSQVHLCKE".data

/-- Body of `validate_dni_spain` after the normalizing reassignment of
`document`. -/
def dniBody (d : List Char) : Bool × Option String :=
  if matchesDollar dniPat d then
    let expected := dniLetters.getD (digitsToNat (d.take 8) % 23) ' '
    if d.getD 8 ' ' == expected then (true, none)
    else (false, some ("La letra del DNI no es válida. Debería ser " ++ String.mk [expected]))
  else (false, some "El DNI debe tener 8 dígitos seguidos de una letra (ej: 12345678Z)")

/-- Embedding of `validate_dni_spain` from `app/utils/document_validator.py`. -/
def validate_dni_spain (document : List Char) : Bool × Option String :=
  dniBody (pyUpper (removeAll [' ', '-'] document))

/-- The NIF check digit computed from the first eight digits. -/
def nifCheck (ds : List Nat) : Nat :=
  let total := (List.zipWith (fun a b => a * b) ds [9, 8, 7, 6, 5, 4, 3, 2]).sum
  let rem := total % 11
  if rem < 2 then 0 else 11 - rem

/-- Body of `validate_nif_portugal` after the normalizing reassignment. -/
def nifBody (d : List Char) : Bool × Option String :=
  if matchesDollar nifPat d then
    if d.length == 9 then
      if charToDigit (d.getD 8 '0') == nifCheck ((d.take 8).map charToDigit) then (true, none)
      else (false, some "El dígito verificador del NIF no es válido")
    else (true, none)
  else (false, some "El NIF debe tener 9 dígitos")

/-- Embedding of `validate_nif_portugal` from `app/utils/document_validator.py`. -/
def validate_nif_portugal (document : List Char) : Bool × Option String :=
  nifBody (removeAll [' ', '-'] document)

/-- Characters removed by `re.sub(r'[.\-\s]', '', document)` in the CPF
validator (dot, dash, whitespace). -/
def cpfStripChars : List Char := ['.', '-', ' ', '\t', '\n', '\r', '\x0b', '\x0c']

/-- The cleaned CPF string. -/
def cpfClean (s : List Char) : List Char := removeAll cpfStripChars s

/-- First CPF check digit: weights 10..2 over the first nine digits. -/
def cpfCheck1 (ds : List Nat) : Nat :=
  let total := (List.zipWith (fun a b => a * b) ds [10, 9, 8, 7, 6, 5, 4, 3, 2]).sum
  let rem := total % 11
  if rem < 2 then 0 else 11 - rem

/-- Second CPF check digit: weights 11..2 over the first nine digits plus the
computed first check digit. -/
def cpfCheck2 (ds : List Nat) : Nat :=
  let total := (List.zipWith (fun a b => a * b) ds [11, 10, 9, 8, 7, 6, 5, 4, 3, 2]).sum
  let rem := total % 11
  if rem < 2 then 0 else 11 - rem

/-- Body of `validate_cpf_brazil` after the normalizing `re.sub`. -/
def cpfBody (d : List Char) : Bool × Option String :=
  if matchesDollar cpfPat d then
    if d.all (fun c => c == d.headD ' ') then
      (false, some "El CPF no puede tener todos los dígitos iguales")
    else
      let digits := (d.take 9).map charToDigit
      let check1 := cpfCheck1 digits
      if check1 == charToDigit (d.getD 9 '0') then
        if cpfCheck2 (digits ++ [check1]) == charToDigit (d.getD 10 '0') then (true, none)
        else (false, some "El segundo dígito verificador del CPF no es válido")
      else (false, some "El primer dígito verificador del CPF no es válido")
  else (false, some "El CPF debe tener 11 dígitos")

/-- Embedding of `validate_cpf_brazil` from `app/utils/document_validator.py`. -/
def validate_cpf_brazil (document : List Char) : Bool × Option String :=
  cpfBody (cpfClean document)

/-- Body of `validate_curp_mexico` after the normalizing reassignment. -/
def curpBody (d : List Char) : Bool × Option String :=
  if matchesDollar curpPat d then (true, none)
  else (false, some "El CURP debe tener 18 caracteres alfanuméricos en el formato correcto")

/-- Embedding of `validate_curp_mexico` from `app/utils/document_validator.py`. -/
def validate_curp_mexico (document : List Char) : Bool × Option String :=
  curpBody (pyUpper (removeAll [' ', '-'] document))

/-- Body of `validate_codice_fiscale_italy` after the normalizing
reassignment. -/
def italyBody (d : List Char) : Bool × Option String :=
  if matchesDollar italyPat d then (true, none)
  else (false, some "El Codice Fiscale debe tener 16 caracteres alfanuméricos")

/-- Embedding of `validate_codice_fiscale_italy` from `app/utils/document_validator.py`. -/
def validate_codice_fiscale_italy (document : List Char) : Bool × Option String :=
  italyBody (pyUpper (removeAll [' ', '-'] document))

/-- Body of `validate_cedula_colombia` after the normalizing reassignment. -/
def cedulaBody (d : List Char) : Bool × Option String :=
  if matchesDollar cedulaPat d then (true, none)
  else (false, some "La Cédula de Ciudadanía debe tener entre 8 y 10 dígitos")

/-- Embedding of `validate_cedula_colombia` from `app/utils/document_validator.py`. -/
def validate_cedula_colombia (document : List Char) : Bool × Option String :=
  cedulaBody (removeAll [' ', '-', '.'] document)

/-- The `Country` enumeration from `app/models/credit_request.py`. -/
inductive Country
  | BRAZIL
  | MEXICO
  | PORTUGAL
  | SPAIN
  | ITALY
  | COLOMBIA
deriving DecidableEq, BEq, Repr

/-- Value of `Country.value`: the string value of each enum member. -/
def Country.value : Country → String
  | .BRAZIL => "Brazil"
  | .MEXICO => "Mexico"
  | .PORTUGAL => "Portugal"
  | .SPAIN => "Spain"
  | .ITALY => "Italy"
  | .COLOMBIA => "Colombia"

/-- The static `validators` dict of `validate_document_format`, in insertion
order (Python dicts iterate in insertion order). -/
def validatorTable :
    List ((Country × List Char) × (List Char → Bool × Option String)) :=
  [((.SPAIN, "DNI".data), validate_dni_spain),
   ((.PORTUGAL, "NIF".data), validate_nif_portugal),
   ((.BRAZIL, "CPF".data), validate_cpf_brazil),
   ((.MEXICO, "CURP".data), validate_curp_mexico),
   ((.ITALY, "CODICE FISCALE".data), validate_codice_fiscale_italy),
   ((.COLOMBIA, "CÉDULA DE CIUDADANÍA".data), validate_cedula_colombia),
   ((.COLOMBIA, "CEDULA DE CIUDADANIA".data), validate_cedula_colombia),
   ((.COLOMBIA, "CC".data), validate_cedula_colombia)]

/-- Python's substring test `a in b` for strings (contiguous substring). -/
def isSubOf : List Char → List Char → Bool
  | a, [] => a.isEmpty
  | a, b@(_ :: t) => a.isPrefixOf b || isSubOf a t

/-- Exact-key lookup predicate of the dispatcher. -/
def exactKey (country : Country) (dtU : List Char)
    (e : (Country × List Char) × (List Char → Bool × Option String)) : Bool :=
  e.1.1 == country && e.1.2 == dtU

/-- Fallback predicate of the dispatcher.  It transcribes the Python
condition `c == country and dt in document_type_upper or document_type_upper
in dt`, where `and` binds tighter than `or`: the second disjunct does not
mention the country. -/
def fallbackKey (country : Country) (dtU : List Char)
    (e : (Country × List Char) × (List Char → Bool × Option String)) : Bool :=
  (e.1.1 == country && isSubOf e.1.2 dtU) || isSubOf dtU e.1.2

/-- Embedding of `validate_document_format` from `app/utils/document_validator.py`. -/
def validate_document_format (country : Country) (document_type : List Char)
    (document : List Char) : Bool × Option String :=
  if document.isEmpty || (pyStrip document).isEmpty then
    (false, some "El documento de identidad es requerido")
  else
    let dtU := pyStrip (pyUpper document_type)
    let dclean := pyStrip document
    match validatorTable.find? (exactKey country dtU) with
    | some e => e.2 dclean
    | none =>
      match validatorTable.find? (fallbackKey country dtU) with
      | some e => e.2 dclean
      | none =>
        if dclean.length < 3 then
          (false, some ("El documento " ++ String.mk document_type ++
            " debe tener al menos 3 caracteres"))
        else if dclean.length > 50 then
          (false, some ("El documento " ++ String.mk document_type ++
            " no puede tener más de 50 caracteres"))
        else (true, none)

/-- Embedding of `ONE_EXAMPLE_PER_COUNTRY_CLEAN` from
`app/utils/valid_documents_examples.py`. -/
def oneExamplePerCountryClean : Country → List Char
  | .SPAIN => "12345678Z".data
  | .PORTUGAL => "123456789".data
  | .BRAZIL => "12345678909".data
  | .MEXICO => "ABCD123456HDFXYZ01".data
  | .ITALY => "RSSMRA80A01H501U".data
  | .COLOMBIA => "12345678".data

/-- Embedding of `ValidationRule` from `app/models/country_rule.py`. -/
structure ValidationRule where
  max_percentage : ℚ
  enabled : Bool
  error_message : Option String
deriving DecidableEq, Repr

/-- The fields of `CountryRuleInDB` the validation engine reads. -/
structure CountryRule where
  country : Country
  required_document_type : List Char
  is_active : Bool
  validation_rules : List ValidationRule
deriving DecidableEq, Repr

/-- One entry of the `validation_errors` list built by
`validate_country_rules`, discriminated by its `rule_type` field. -/
inductive ErrorDetail
  | documentFormat (required_document_type : List Char)
      (provided_document : List Char) (error_message : String)
  | amountToIncomeRatio (max_percentage : ℚ) (requested_percentage : Option ℚ)
      (requested_amount : ℚ) (monthly_income : ℚ) (error_message : String)
deriving DecidableEq, Repr

/-- The `error_message` field of an error entry. -/
def ErrorDetail.message : ErrorDetail → String
  | .documentFormat _ _ m => m
  | .amountToIncomeRatio _ _ _ _ m => m

/-- Whether an entry has `rule_type == "document_format"`. -/
def ErrorDetail.isDocumentFormat : ErrorDetail → Bool
  | .documentFormat _ _ _ => true
  | .amountToIncomeRatio _ _ _ _ _ => false

/-- Whether an entry has `rule_type == "amount_to_income_ratio"`. -/
def ErrorDetail.isAmountToIncomeRatio : ErrorDetail → Bool
  | .documentFormat _ _ _ => false
  | .amountToIncomeRatio _ _ _ _ _ => true

/-- Python's `x or default` for an optional string (`None` and `""` are
falsy). -/
def pyOr (o : Option String) (d : String) : String :=
  match o with
  | some m => if m.isEmpty then d else m
  | none => d

/-- Model of Python's `round(q, 2)` on exact rationals. -/
def pyRound2 (q : ℚ) : ℚ := (round (q * 100) : ℤ) / 100

/-- Decimal rendering of a rational, modelling Python's float formatting in
f-strings (exact for the integral values reached in this development). -/
def pyFloatRepr (q : ℚ) : String :=
  if q.den = 1 then toString q.num ++ ".0"
  else toString q.num ++ "/" ++ toString q.den

/-- The default affordability error message synthesized by
`validate_country_rules` when the rule carries no custom message. -/
def defaultAffordMsg (maxPct amount income pct : ℚ) : String :=
  "El monto solicitado (" ++ pyFloatRepr amount ++ ") excede el " ++
    pyFloatRepr maxPct ++ "% del ingreso mensual (" ++ pyFloatRepr income ++
    "). Porcentaje calculado: " ++ pyFloatRepr pct ++ "%"

/-- The dedicated non-positive-income error message. -/
def incomeMsg : String := "El ingreso mensual debe ser mayor a cero"

/-- One iteration of the affordability loop of `validate_country_rules`:
the error entry the rule contributes, if any. -/
def evalRule (requested_amount monthly_income : ℚ) (r : ValidationRule) :
    Option ErrorDetail :=
  if r.enabled then
    if 0 < monthly_income then
      let percentage := requested_amount / monthly_income * 100
      if r.max_percentage < percentage then
        some (.amountToIncomeRatio r.max_percentage (some (pyRound2 percentage))
          requested_amount monthly_income
          (pyOr r.error_message
            (defaultAffordMsg r.max_percentage requested_amount monthly_income
              (pyRound2 percentage))))
      else none
    else
      some (.amountToIncomeRatio r.max_percentage none requested_amount
        monthly_income incomeMsg)
  else none

/-- The document-format error entries (zero or one) collected by
`validate_country_rules`. -/
def docErrors (country : Country) (required_document_type : List Char)
    (identity_document : List Char) : List ErrorDetail :=
  let r := validate_document_format country required_document_type identity_document
  if r.1 then []
  else
    let ex := oneExamplePerCountryClean country
    let exampleText :=
      if ex.isEmpty then "" else ". Ejemplo válido: " ++ String.mk ex
    [.documentFormat required_document_type identity_document
      (pyOr r.2
        ("El formato del documento " ++ String.mk required_document_type ++
          " no es válido para " ++ Country.value country ++ exampleText))]

/-- The `rule_details` payload of a raised `ValidationError`. -/
structure RuleDetails where
  country : String
  required_document_type : List Char
  errors : List ErrorDetail
  summary : String
deriving DecidableEq, Repr

/-- The `ValidationError` raised by `validate_country_rules`: message plus
structured details. -/
structure ValidationErr where
  message : String
  rule_details : RuleDetails
deriving DecidableEq, Repr

/-- The complete `validation_errors` list accumulated by
`validate_country_rules` under an active rule: document-format errors first,
then affordability errors in rule-list order. -/
def errsOf (cr : CountryRule) (country : Country) (identity_document : List Char)
    (requested_amount monthly_income : ℚ) : List ErrorDetail :=
  docErrors country cr.required_document_type identity_document ++
    cr.validation_rules.filterMap (evalRule requested_amount monthly_income)

/-- Embedding of `validate_country_rules` from `app/services/credit_request_service.py`.
The rule fetched from the store (`get_country_rule_by_country`, an external
collaborator) is passed in as `country_rule`; `none` models a raised
`ValidationError`-free return, `some` a raised error. -/
def validate_country_rules (country_rule : Option CountryRule)
    (country : Country) (identity_document : List Char)
    (requested_amount monthly_income : ℚ) : Option ValidationErr :=
  match country_rule with
  | none => none
  | some cr =>
    if cr.is_active then
      let errs := errsOf cr country identity_document requested_amount monthly_income
      if errs.isEmpty then none
      else
        some
          { message := "La solicitud no cumple con las reglas de validación del país"
            rule_details :=
              { country := Country.value country
                required_document_type := cr.required_document_type
                errors := errs
                summary := String.intercalate "; " (errs.map ErrorDetail.message) } }
    else none

/-! ### Normalization lemmas -/

theorem filter_filter_absorb (p q : Char → Bool)
    (h : ∀ c, p c = true → q c = true) (s : List Char) :
    List.filter p (List.filter q s) = List.filter p s := by
  induction s with
  | nil => rfl
  | cons c t ih =>
    by_cases hq : q c = true
    · by_cases hp : p c = true
      · rw [List.filter_cons_of_pos hq, List.filter_cons_of_pos hp,
          List.filter_cons_of_pos hp, ih]
      · rw [List.filter_cons_of_pos hq, List.filter_cons_of_neg hp,
          List.filter_cons_of_neg hp, ih]
    · have hp : ¬p c = true := fun hpc => hq (h c hpc)
      rw [List.filter_cons_of_neg hq, List.filter_cons_of_neg hp, ih]

theorem removeAll_removeAll (A B : List Char) (h : ∀ c ∈ A, c ∈ B) (s : List Char) :
    removeAll B (removeAll A s) = removeAll B s := by
  refine filter_filter_absorb _ _ (fun c hc => ?_) s
  rw [Bool.not_eq_true'] at hc ⊢
  rw [Bool.eq_false_iff] at hc ⊢
  intro hmem
  exact hc (List.elem_iff.mpr (h c (List.elem_iff.mp hmem)))

theorem removeAll_idem (A : List Char) (s : List Char) :
    removeAll A (removeAll A s) = removeAll A s :=
  removeAll_removeAll A A (fun _ hc => hc) s

theorem pyToUpper_find_none {c : Char}
    (h : upperPairs.find? (fun p => p.1 == c) = none) : pyToUpper c = c := by
  simp [pyToUpper, h]

theorem pyToUpper_find_some {c : Char} {q : Char × Char}
    (h : upperPairs.find? (fun p => p.1 == c) = some q) :
    pyToUpper c = q.2 ∧ q ∈ upperPairs ∧ q.1 = c := by
  refine ⟨by simp [pyToUpper, h], List.mem_of_find?_eq_some h, ?_⟩
  have := List.find?_some h
  simpa using this

theorem pyToUpper_pres (S : Char → Bool) (h : ∀ p ∈ upperPairs, S p.1 = S p.2)
    (c : Char) : S (pyToUpper c) = S c := by
  cases hf : upperPairs.find? (fun p => p.1 == c) with
  | none => rw [pyToUpper_find_none hf]
  | some q =>
    obtain ⟨h1, h2, h3⟩ := pyToUpper_find_some hf
    rw [h1, ← h3, h q h2]

theorem pyToUpper_idem (c : Char) : pyToUpper (pyToUpper c) = pyToUpper c := by
  cases hf : upperPairs.find? (fun p => p.1 == c) with
  | none => rw [pyToUpper_find_none hf, pyToUpper_find_none hf]
  | some q =>
    obtain ⟨h1, h2, _⟩ := pyToUpper_find_some hf
    rw [h1]
    have hall : ∀ p ∈ upperPairs,
        upperPairs.find? (fun r => r.1 == p.2) = none := by decide
    exact pyToUpper_find_none (hall q h2)

theorem pyUpper_idem (s : List Char) : pyUpper (pyUpper s) = pyUpper s := by
  simp only [pyUpper, List.map_map]
  exact List.map_congr_left (fun c _ => pyToUpper_idem c)

theorem removeAll_pyUpper (B : List Char)
    (h : ∀ p ∈ upperPairs, B.contains p.1 = B.contains p.2) (s : List Char) :
    removeAll B (pyUpper s) = pyUpper (removeAll B s) := by
  induction s with
  | nil => rfl
  | cons c t ih =>
    have hc : B.contains (pyToUpper c) = B.contains c :=
      pyToUpper_pres (fun x => B.contains x) h c
    by_cases hB : B.contains c = true
    · simp only [removeAll, pyUpper, List.map_cons, List.filter_cons, hB, hc] at *
      simpa [hB] using ih
    · rw [Bool.not_eq_true] at hB
      simp only [removeAll, pyUpper, List.map_cons, List.filter_cons, hB, hc] at *
      simpa [hB] using ih

theorem pyToUpper_isDigit (c : Char) : (pyToUpper c).isDigit = c.isDigit :=
  pyToUpper_pres Char.isDigit (by decide) c

theorem pyToUpper_of_isDigit {c : Char} (h : c.isDigit = true) :
    pyToUpper c = c := by
  cases hf : upperPairs.find? (fun p => p.1 == c) with
  | none => exact pyToUpper_find_none hf
  | some q =>
    obtain ⟨_, h2, h3⟩ := pyToUpper_find_some hf
    have hnd : ∀ p ∈ upperPairs, p.1.isDigit = false := by decide
    have hq := hnd q h2
    rw [h3] at hq
    rw [hq] at h
    exact absurd h (by simp)

theorem pyUpper_eq_self {l : List Char} (h : ∀ c ∈ l, pyToUpper c = c) :
    pyUpper l = l := by
  simpa [pyUpper] using List.map_congr_left h

theorem pyToUpper_newline : pyToUpper '\n' = '\n' := by decide

theorem matchesDollar_pyUpper (p : List Char → Bool)
    (hp : ∀ l, p (pyUpper l) = p l) (s : List Char) :
    matchesDollar p (pyUpper s) = matchesDollar p s := by
  unfold matchesDollar
  rw [hp s]
  congr 1
  have h1 : (pyUpper s).getLast? = s.getLast?.map pyToUpper :=
    List.getLast?_map pyToUpper s
  have h2 : (pyUpper s).dropLast = pyUpper s.dropLast :=
    (List.map_dropLast pyToUpper s).symm
  rw [h1, h2, hp]
  congr 1
  cases hL : s.getLast? with
  | none => rfl
  | some c => exact pyToUpper_pres (fun x => x == '\n') (by decide) c

theorem nifPat_pyUpper (l : List Char) : nifPat (pyUpper l) = nifPat l := by
  simp [nifPat, pyUpper, List.all_map, Function.comp_def, pyToUpper_isDigit]

theorem cpfPat_pyUpper (l : List Char) : cpfPat (pyUpper l) = cpfPat l := by
  simp [cpfPat, pyUpper, List.all_map, Function.comp_def, pyToUpper_isDigit]

theorem cedulaPat_pyUpper (l : List Char) : cedulaPat (pyUpper l) = cedulaPat l := by
  simp [cedulaPat, pyUpper, List.all_map, Function.comp_def, pyToUpper_isDigit]

theorem pyUpper_eq_self_of_dollar_digits (p : List Char → Bool)
    (hall : ∀ l, p l = true → l.all Char.isDigit = true)
    {d : List Char} (h : matchesDollar p d = true) : pyUpper d = d := by
  apply pyUpper_eq_self
  intro c hc
  unfold matchesDollar at h
  simp only [Bool.or_eq_true, Bool.and_eq_true] at h
  rcases h with hcore | ⟨hlast, hp⟩
  · exact pyToUpper_of_isDigit (List.all_eq_true.mp (hall d hcore) c hc)
  · have hne : d ≠ [] := by
      intro e
      subst e
      simp at hlast
    have hdec := List.dropLast_concat_getLast hne
    rw [← hdec] at hc
    rcases List.mem_append.mp hc with h1 | h2
    · exact pyToUpper_of_isDigit (List.all_eq_true.mp (hall _ hp) c h1)
    · have hlastEq : d.getLast hne = '\n' := by
        have := List.getLast?_eq_getLast d hne
        rw [this] at hlast
        simpa using hlast
      have : c = '\n' := by simpa [hlastEq] using h2
      rw [this]
      exact pyToUpper_newline

theorem nifPat_digits {l : List Char} (h : nifPat l = true) :
    l.all Char.isDigit = true := by
  simp only [nifPat, Bool.and_eq_true] at h
  exact h.2

theorem cpfPat_digits {l : List Char} (h : cpfPat l = true) :
    l.all Char.isDigit = true := by
  simp only [cpfPat, Bool.and_eq_true] at h
  exact h.2

theorem cedulaPat_digits {l : List Char} (h : cedulaPat l = true) :
    l.all Char.isDigit = true := by
  simp only [cedulaPat, Bool.and_eq_true] at h
  exact h.2

theorem nifBody_pyUpper (d : List Char) : nifBody (pyUpper d) = nifBody d := by
  by_cases h : matchesDollar nifPat d = true
  · rw [pyUpper_eq_self_of_dollar_digits nifPat (fun _ hl => nifPat_digits hl) h]
  · have h2 : matchesDollar nifPat (pyUpper d) = false := by
      rw [matchesDollar_pyUpper nifPat nifPat_pyUpper]
      exact Bool.eq_false_iff.mpr h
    have h1 : matchesDollar nifPat d = false := Bool.eq_false_iff.mpr h
    simp [nifBody, h1, h2]

theorem cpfBody_pyUpper (d : List Char) : cpfBody (pyUpper d) = cpfBody d := by
  by_cases h : matchesDollar cpfPat d = true
  · rw [pyUpper_eq_self_of_dollar_digits cpfPat (fun _ hl => cpfPat_digits hl) h]
  · have h2 : matchesDollar cpfPat (pyUpper d) = false := by
      rw [matchesDollar_pyUpper cpfPat cpfPat_pyUpper]
      exact Bool.eq_false_iff.mpr h
    have h1 : matchesDollar cpfPat d = false := Bool.eq_false_iff.mpr h
    simp [cpfBody, h1, h2]

theorem cedulaBody_pyUpper (d : List Char) :
    cedulaBody (pyUpper d) = cedulaBody d := by
  by_cases h : matchesDollar cedulaPat d = true
  · rw [pyUpper_eq_self_of_dollar_digits cedulaPat
      (fun _ hl => cedulaPat_digits hl) h]
  · have h2 : matchesDollar cedulaPat (pyUpper d) = false := by
      rw [matchesDollar_pyUpper cedulaPat cedulaPat_pyUpper]
      exact Bool.eq_false_iff.mpr h
    have h1 : matchesDollar cedulaPat d = false := Bool.eq_false_iff.mpr h
    simp [cedulaBody, h1, h2]

/-- The canonical normalization the amended C4 claim refers to: remove spaces
and dashes, uppercase. -/
def normSD (s : List Char) : List Char := pyUpper (removeAll [' ', '-'] s)

theorem normSD_normSD (s : List Char) : normSD (normSD s) = normSD s := by
  unfold normSD
  rw [removeAll_pyUpper _ (by decide), removeAll_idem, pyUpper_idem]

theorem validate_dni_spain_norm (s : List Char) :
    validate_dni_spain (normSD s) = validate_dni_spain s := by
  unfold validate_dni_spain
  rw [show pyUpper (removeAll [' ', '-'] (normSD s)) = normSD (normSD s) from rfl,
    normSD_normSD]
  rfl

theorem validate_curp_mexico_norm (s : List Char) :
    validate_curp_mexico (normSD s) = validate_curp_mexico s := by
  unfold validate_curp_mexico
  rw [show pyUpper (removeAll [' ', '-'] (normSD s)) = normSD (normSD s) from rfl,
    normSD_normSD]
  rfl

theorem validate_codice_fiscale_italy_norm (s : List Char) :
    validate_codice_fiscale_italy (normSD s) = validate_codice_fiscale_italy s := by
  unfold validate_codice_fiscale_italy
  rw [show pyUpper (removeAll [' ', '-'] (normSD s)) = normSD (normSD s) from rfl,
    normSD_normSD]
  rfl

theorem validate_nif_portugal_norm (s : List Char) :
    validate_nif_portugal (normSD s) = validate_nif_portugal s := by
  unfold validate_nif_portugal normSD
  rw [removeAll_pyUpper _ (by decide), removeAll_idem, nifBody_pyUpper]

theorem validate_cpf_brazil_norm (s : List Char) :
    validate_cpf_brazil (normSD s) = validate_cpf_brazil s := by
  unfold validate_cpf_brazil cpfClean normSD
  rw [removeAll_pyUpper _ (by decide), removeAll_removeAll _ _ (by decide),
    cpfBody_pyUpper]

theorem validate_cedula_colombia_norm (s : List Char) :
    validate_cedula_colombia (normSD s) = validate_cedula_colombia s := by
  unfold validate_cedula_colombia normSD
  rw [removeAll_pyUpper _ (by decide), removeAll_removeAll _ _ (by decide),
    cedulaBody_pyUpper]

/-! ### Service-layer lemmas -/

theorem docErrors_eq_nil_iff (c : Country) (t d : List Char) :
    docErrors c t d = [] ↔ (validate_document_format c t d).1 = true := by
  unfold docErrors
  by_cases h : (validate_document_format c t d).1 = true <;> simp [h]

theorem evalRule_eq_none_iff {amt inc : ℚ} (r : ValidationRule) (hinc : 0 < inc) :
    evalRule amt inc r = none ↔
      (r.enabled = true → amt / inc * 100 ≤ r.max_percentage) := by
  unfold evalRule
  by_cases he : r.enabled
  · by_cases hp : r.max_percentage < amt / inc * 100
    · simp [he, hinc, hp, not_le.mpr hp]
    · simp [he, hinc, hp, not_lt.mp hp]
  · simp [he]

theorem evalRule_shape {amt inc : ℚ} {r : ValidationRule} {d : ErrorDetail}
    (h : evalRule amt inc r = some d) : d.isAmountToIncomeRatio = true := by
  unfold evalRule at h
  by_cases he : r.enabled
  · by_cases hinc : 0 < inc
    · by_cases hp : r.max_percentage < amt / inc * 100
      · simp only [he, hinc, hp, if_true, Option.some.injEq] at h
        rw [← h]
        rfl
      · simp [he, hinc, hp] at h
    · simp only [he, hinc, if_true, if_false, Option.some.injEq] at h
      rw [← h]
      rfl
  · simp [he] at h

theorem validate_country_rules_active_none_iff {cr : CountryRule}
    (h : cr.is_active = true) (country : Country) (doc : List Char)
    (amt inc : ℚ) :
    validate_country_rules (some cr) country doc amt inc = none ↔
      (docErrors country cr.required_document_type doc = [] ∧
        cr.validation_rules.filterMap (evalRule amt inc) = []) := by
  unfold validate_country_rules
  dsimp only
  rw [h]
  unfold errsOf
  by_cases he :
      (docErrors country cr.required_document_type doc ++
        cr.validation_rules.filterMap (evalRule amt inc)) = []
  · simp [he, List.append_eq_nil.mp he]
  · have : (docErrors country cr.required_document_type doc ++
        cr.validation_rules.filterMap (evalRule amt inc)).isEmpty = false := by
      simpa [List.isEmpty_iff] using he
    simp only [if_true, this, Bool.false_eq_true, if_false]
    constructor
    · intro hc
      exact absurd hc (by simp)
    · intro hc
      exact absurd (List.append_eq_nil.mpr hc) he

/-- Under an active rule with a non-empty accumulated error list,
`validate_country_rules` raises the structured error built from that list. -/
theorem validate_country_rules_active_some {cr : CountryRule}
    (h : cr.is_active = true) (country : Country) (doc : List Char)
    (amt inc : ℚ) (hne : errsOf cr country doc amt inc ≠ []) :
    validate_country_rules (some cr) country doc amt inc =
      some
        { message := "La solicitud no cumple con las reglas de validación del país"
          rule_details :=
            { country := Country.value country
              required_document_type := cr.required_document_type
              errors := errsOf cr country doc amt inc
              summary := String.intercalate "; "
                ((errsOf cr country doc amt inc).map ErrorDetail.message) } } := by
  unfold validate_country_rules
  dsimp only
  rw [h]
  have he : (errsOf cr country doc amt inc).isEmpty = false := by
    simpa [List.isEmpty_iff] using hne
  simp [he]

theorem validate_cpf_brazil_dots (s : List Char) :
    validate_cpf_brazil (removeAll ['.'] s) = validate_cpf_brazil s := by
  unfold validate_cpf_brazil cpfClean
  rw [removeAll_removeAll _ _ (by decide)]

theorem validate_cedula_colombia_dots (s : List Char) :
    validate_cedula_colombia (removeAll ['.'] s) = validate_cedula_colombia s := by
  unfold validate_cedula_colombia
  rw [removeAll_removeAll _ _ (by decide)]

theorem pyOr_some (m d : String) (h : m.isEmpty = false) :
    pyOr (some m) d = m := by
  simp [pyOr, h]

/-- Value of `evalRule` on an enabled rule violated at positive income. -/
theorem evalRule_violation {amt inc : ℚ} {r : ValidationRule}
    (he : r.enabled = true) (hinc : 0 < inc)
    (hp : r.max_percentage < amt / inc * 100) :
    evalRule amt inc r =
      some (.amountToIncomeRatio r.max_percentage
        (some (pyRound2 (amt / inc * 100))) amt inc
        (pyOr r.error_message
          (defaultAffordMsg r.max_percentage amt inc (pyRound2 (amt / inc * 100))))) := by
  unfold evalRule
  rw [if_pos he, if_pos hinc]
  dsimp only
  rw [if_pos hp]

/-! ### Claim theorems -/

/-- C1: for a country with an active `CountryRule` and positive monthly
income, `validate_country_rules` succeeds (returns without error) iff the
document passes `validate_document_format` for the rule's required document
type and every enabled affordability rule satisfies
`requested_amount / monthly_income * 100 <= max_percentage`; with no rule, or
an inactive rule, it succeeds unconditionally. -/
theorem c1_admissibility (cr : CountryRule) (country : Country)
    (doc : List Char) (amt inc : ℚ) :
    validate_country_rules none country doc amt inc = none ∧
    (cr.is_active = false →
      validate_country_rules (some cr) country doc amt inc = none) ∧
    (cr.is_active = true → 0 < inc →
      (validate_country_rules (some cr) country doc amt inc = none ↔
        ((validate_document_format country cr.required_document_type doc).1 = true ∧
          ∀ r ∈ cr.validation_rules, r.enabled = true →
            amt / inc * 100 ≤ r.max_percentage))) := by
  refine ⟨rfl, ?_, ?_⟩
  · intro h
    simp [validate_country_rules, h]
  · intro ha hinc
    rw [validate_country_rules_active_none_iff ha]
    rw [docErrors_eq_nil_iff, List.filterMap_eq_nil_iff]
    constructor
    · rintro ⟨h1, h2⟩
      exact ⟨h1, fun r hr he => (evalRule_eq_none_iff r hinc).mp (h2 r hr) he⟩
    · rintro ⟨h1, h2⟩
      exact ⟨h1, fun r hr => (evalRule_eq_none_iff r hinc).mpr (h2 r hr)⟩

/-- C1 witness: Spain, active rule with a 30% cap, valid DNI, 20% requested:
validation succeeds. -/
theorem c1_admissibility_witness :
    validate_country_rules
      (some ⟨.SPAIN, "DNI".data, true, [⟨30, true, none⟩]⟩) .SPAIN
      "12345678Z".data 1000 5000 = none :=
  ((c1_admissibility ⟨.SPAIN, "DNI".data, true, [⟨30, true, none⟩]⟩ .SPAIN
      "12345678Z".data 1000 5000).2.2 rfl (by norm_num)).mpr
    ⟨by decide, by
      intro r hr he
      simp only [List.mem_singleton] at hr
      subst hr
      norm_num⟩

/-- C4 counterexample: the Spanish DNI validator does not strip dots, so its
result on `"123.456.78Z"` differs from its result on the same string with
spaces, dashes and dots removed (and letters uppercased): the raw string is
rejected while the claim-normalized string is the valid DNI `12345678Z`. -/
theorem c4_counterexample :
    validate_dni_spain "123.456.78Z".data ≠
      validate_dni_spain (pyUpper (removeAll [' ', '-', '.'] "123.456.78Z".data)) := by
  decide

/-- C4 (amended): every one of the six validators first strips spaces and
dashes and uppercases, so each result is invariant under removing spaces and
dashes and uppercasing (`normSD`); the CPF and Cédula validators additionally
strip dots, so those two are also invariant under dot removal.  (Dots are not
stripped by the DNI, NIF, CURP and Codice Fiscale validators.) -/
theorem c4_normalization (s : List Char) :
    validate_dni_spain (normSD s) = validate_dni_spain s ∧
    validate_nif_portugal (normSD s) = validate_nif_portugal s ∧
    validate_cpf_brazil (normSD s) = validate_cpf_brazil s ∧
    validate_curp_mexico (normSD s) = validate_curp_mexico s ∧
    validate_codice_fiscale_italy (normSD s) = validate_codice_fiscale_italy s ∧
    validate_cedula_colombia (normSD s) = validate_cedula_colombia s ∧
    validate_cpf_brazil (removeAll ['.'] s) = validate_cpf_brazil s ∧
    validate_cedula_colombia (removeAll ['.'] s) = validate_cedula_colombia s :=
  ⟨validate_dni_spain_norm s, validate_nif_portugal_norm s,
   validate_cpf_brazil_norm s, validate_curp_mexico_norm s,
   validate_codice_fiscale_italy_norm s, validate_cedula_colombia_norm s,
   validate_cpf_brazil_dots s, validate_cedula_colombia_dots s⟩

/-- C5: the Spanish DNI validator accepts iff, after normalization, the
document matches `^[0-9]{8}[A-Z]$` (Python semantics of the regex) and its
check letter equals the letter at index `digits mod 23` of
`TRWAGMYFPDXBNJZSQVHLCKE`; `12345678Z` is valid, `12345678A` fails with the
wrong-letter message and `1234567Z` fails with the distinct format message. -/
theorem c5_dni_spec (s : List Char) :
    ((validate_dni_spain s).1 = true ↔
      (matchesDollar dniPat (normSD s) = true ∧
        (normSD s).getD 8 ' ' =
          dniLetters.getD (digitsToNat ((normSD s).take 8) % 23) ' ')) ∧
    validate_dni_spain "12345678Z".data = (true, none) ∧
    validate_dni_spain "12345678A".data =
      (false, some "La letra del DNI no es válida. Debería ser Z") ∧
    validate_dni_spain "1234567Z".data =
      (false, some "El DNI debe tener 8 dígitos seguidos de una letra (ej: 12345678Z)") := by
  refine ⟨?_, by decide, by decide, by decide⟩
  have hrw : validate_dni_spain s = dniBody (normSD s) := rfl
  rw [hrw]
  unfold dniBody
  by_cases h : matchesDollar dniPat (normSD s) = true
  · rw [if_pos h]
    dsimp only
    by_cases h2 : ((normSD s).getD 8 ' ' ==
        dniLetters.getD (digitsToNat ((normSD s).take 8) % 23) ' ') = true
    · rw [if_pos h2]
      exact ⟨fun _ => ⟨h, by simpa using h2⟩, fun _ => rfl⟩
    · rw [if_neg h2]
      constructor
      · intro hh
        exact absurd hh (by simp)
      · rintro ⟨_, hEq⟩
        exact absurd (beq_iff_eq.mpr hEq) h2
  · rw [if_neg h]
    constructor
    · intro hh
      exact absurd hh (by simp)
    · rintro ⟨h1, _⟩
      exact absurd h1 h

/-- C5 witness: the equivalence applied to the concrete valid DNI. -/
theorem c5_dni_spec_witness : (validate_dni_spain "12345678Z".data).1 = true :=
  ((c5_dni_spec "12345678Z".data).1).mpr (by decide)

/-- C2: whenever validation fails under an active rule, the raised error
carries the whole accumulated list — document-format errors first, then
affordability errors in rule-list order — together with the country, the
required document type, and a summary joining every error message with
`"; "`. -/
theorem c2_error_aggregation (cr : CountryRule) (country : Country)
    (doc : List Char) (amt inc : ℚ) (e : ValidationErr)
    (ha : cr.is_active = true)
    (h : validate_country_rules (some cr) country doc amt inc = some e) :
    e.rule_details.country = Country.value country ∧
    e.rule_details.required_document_type = cr.required_document_type ∧
    e.rule_details.errors =
      docErrors country cr.required_document_type doc ++
        cr.validation_rules.filterMap (evalRule amt inc) ∧
    e.rule_details.errors ≠ [] ∧
    (∀ d ∈ docErrors country cr.required_document_type doc,
      d.isDocumentFormat = true) ∧
    (∀ d ∈ cr.validation_rules.filterMap (evalRule amt inc),
      d.isAmountToIncomeRatio = true) ∧
    e.rule_details.summary =
      String.intercalate "; " (e.rule_details.errors.map ErrorDetail.message) := by
  by_cases hne : errsOf cr country doc amt inc = []
  · have hz := (validate_country_rules_active_none_iff ha country doc amt inc).mpr
      (List.append_eq_nil.mp (by unfold errsOf at hne; exact hne))
    rw [hz] at h
    cases h
  · have heq := validate_country_rules_active_some ha country doc amt inc hne
    rw [heq] at h
    injection h with h
    subst h
    refine ⟨rfl, rfl, by unfold errsOf; rfl, hne, ?_, ?_, rfl⟩
    · intro d hd
      unfold docErrors at hd
      by_cases hv : (validate_document_format country cr.required_document_type doc).1 = true
      · simp [hv] at hd
      · simp only [hv, Bool.false_eq_true, if_false, List.mem_singleton] at hd
        subst hd
        rfl
    · intro d hd
      obtain ⟨r, _, hr⟩ := List.mem_filterMap.mp hd
      exact evalRule_shape hr

/-- The concrete country rule used in the C2 witness. -/
def c2Rule : CountryRule :=
  ⟨.SPAIN, "DNI".data, true, [⟨30, true, some "monto supera el límite permitido"⟩]⟩

/-- The error raised for the C2 witness input: wrong DNI check letter plus a
40% > 30% affordability violation. -/
def c2Err : ValidationErr :=
  { message := "La solicitud no cumple con las reglas de validación del país"
    rule_details :=
      { country := "Spain"
        required_document_type := "DNI".data
        errors :=
          [.documentFormat "DNI".data "12345678A".data
            "La letra del DNI no es válida. Debería ser Z",
           .amountToIncomeRatio 30 (some 40) 2000 5000
            "monto supera el límite permitido"]
        summary :=
          "La letra del DNI no es válida. Debería ser Z; monto supera el límite permitido" } }

/-- C2 witness: an input violating both the document format and the
affordability cap yields both entries, document error first, and the summary
joins both messages. -/
theorem c2_error_aggregation_witness :
    c2Err.rule_details.country = Country.value .SPAIN ∧
    c2Err.rule_details.required_document_type = c2Rule.required_document_type ∧
    c2Err.rule_details.errors =
      docErrors .SPAIN c2Rule.required_document_type "12345678A".data ++
        c2Rule.validation_rules.filterMap (evalRule 2000 5000) ∧
    c2Err.rule_details.errors ≠ [] ∧
    (∀ d ∈ docErrors .SPAIN c2Rule.required_document_type "12345678A".data,
      d.isDocumentFormat = true) ∧
    (∀ d ∈ c2Rule.validation_rules.filterMap (evalRule 2000 5000),
      d.isAmountToIncomeRatio = true) ∧
    c2Err.rule_details.summary =
      String.intercalate "; " (c2Err.rule_details.errors.map ErrorDetail.message) := by
  have hround : pyRound2 ((2000 : ℚ) / 5000 * 100) = 40 := by
    unfold pyRound2
    norm_num [round_eq]
  have hafford :
      evalRule 2000 5000
        (⟨30, true, some "monto supera el límite permitido"⟩ : ValidationRule) =
      some (.amountToIncomeRatio 30 (some 40) 2000 5000
        "monto supera el límite permitido") := by
    rw [evalRule_violation rfl (by norm_num) (by norm_num), hround,
      pyOr_some _ _ (by decide)]
  have h : validate_country_rules (some c2Rule) .SPAIN "12345678A".data 2000 5000 =
      some c2Err := by
    have herrs : errsOf c2Rule .SPAIN "12345678A".data 2000 5000 =
        c2Err.rule_details.errors := by
      unfold errsOf c2Rule
      rw [show docErrors .SPAIN "DNI".data "12345678A".data =
        [.documentFormat "DNI".data "12345678A".data
          "La letra del DNI no es válida. Debería ser Z"] from by decide]
      simp only [List.filterMap_cons, List.filterMap_nil, hafford]
      rfl
    rw [validate_country_rules_active_some rfl _ _ _ _ (by rw [herrs]; simp [c2Err])]
    rw [herrs]
    rfl
  exact c2_error_aggregation c2Rule .SPAIN "12345678A".data 2000 5000 c2Err rfl h

/-- C3 counterexample: for country Spain with declared type `NIF` and the
nine-character document `123456788`, no exact key matches, no entry of the
same country is in a substring relation with the declared type, and the
document length is in the generic-accept range — so the claimed dispatcher
would accept — yet the code rejects with the Portuguese NIF check-digit
message, because the Python condition
`c == country and dt in document_type_upper or document_type_upper in dt`
lets the second disjunct ignore the country. -/
theorem c3_counterexample :
    (validate_document_format .SPAIN "NIF".data "123456788".data).1 = false ∧
    (validate_document_format .SPAIN "NIF".data "123456788".data).2 =
      some "El dígito verificador del NIF no es válido" ∧
    (validatorTable.find? (exactKey .SPAIN (pyStrip (pyUpper "NIF".data)))).isNone
      = true ∧
    (∀ e ∈ validatorTable, e.1.1 = Country.SPAIN →
      (isSubOf e.1.2 (pyStrip (pyUpper "NIF".data)) ||
        isSubOf (pyStrip (pyUpper "NIF".data)) e.1.2) = false) ∧
    3 ≤ (pyStrip "123456788".data).length ∧
    (pyStrip "123456788".data).length ≤ 50 := by
  decide

/-- C3 (amended): the dispatcher tries the exact `(country, uppercased type)`
key first; failing that it selects the first table entry satisfying the
transcribed Python fallback — same country and canonical label contained in
the declared type, **or** declared type contained in the canonical label with
the country ignored (operator precedence: `and` binds tighter than `or`) —
and with no match it applies the generic policy, accepting exactly the
documents of stripped length 3..50 (the empty/whitespace case is rejected
before dispatch).  The fallback is a total function, so it never throws. -/
theorem c3_dispatcher (country : Country) (dt doc : List Char)
    (hne : (pyStrip doc).isEmpty = false) :
    (∀ e, validatorTable.find? (exactKey country (pyStrip (pyUpper dt))) = some e →
      validate_document_format country dt doc = e.2 (pyStrip doc)) ∧
    (validatorTable.find? (exactKey country (pyStrip (pyUpper dt))) = none →
      ∀ e, validatorTable.find? (fallbackKey country (pyStrip (pyUpper dt))) = some e →
        validate_document_format country dt doc = e.2 (pyStrip doc)) ∧
    (validatorTable.find? (exactKey country (pyStrip (pyUpper dt))) = none →
      validatorTable.find? (fallbackKey country (pyStrip (pyUpper dt))) = none →
      ((validate_document_format country dt doc).1 = true ↔
        (3 ≤ (pyStrip doc).length ∧ (pyStrip doc).length ≤ 50))) := by
  have hd : doc.isEmpty = false := by
    cases doc with
    | nil => exact absurd hne (by simp [pyStrip])
    | cons c t => rfl
  have hcond : (doc.isEmpty || (pyStrip doc).isEmpty) = false := by
    rw [hd, hne]
    rfl
  refine ⟨?_, ?_, ?_⟩
  · intro e he
    unfold validate_document_format
    rw [hcond]
    dsimp only
    rw [he, if_neg (by decide)]
  · intro hex e he
    unfold validate_document_format
    rw [hcond]
    dsimp only
    rw [hex, he, if_neg (by decide)]
  · intro hex hfb
    unfold validate_document_format
    rw [hcond]
    dsimp only
    rw [hex, hfb, if_neg (by decide)]
    dsimp only
    by_cases h3 : (pyStrip doc).length < 3
    · rw [if_pos h3]
      constructor
      · intro hh
        exact absurd hh (by simp)
      · rintro ⟨hge, _⟩
        omega
    · rw [if_neg h3]
      by_cases h50 : 50 < (pyStrip doc).length
      · rw [if_pos h50]
        constructor
        · intro hh
          exact absurd hh (by simp)
        · rintro ⟨_, hle⟩
          omega
      · rw [if_neg h50]
        constructor
        · intro _
          omega
        · intro _
          rfl

/-- C3 witness: the exact-match branch at Spain/DNI. -/
theorem c3_dispatcher_witness :
    validate_document_format .SPAIN "DNI".data "12345678Z".data =
      validate_dni_spain (pyStrip "12345678Z".data) :=
  (c3_dispatcher .SPAIN "DNI".data "12345678Z".data (by decide)).1
    ((Country.SPAIN, "DNI".data), validate_dni_spain) rfl

theorem cpfClean_no_newline (s : List Char) : '\n' ∉ cpfClean s := by
  intro h
  unfold cpfClean removeAll at h
  have := List.of_mem_filter h
  simp [cpfStripChars] at this

theorem matchesDollar_cpfClean (s : List Char) :
    matchesDollar cpfPat (cpfClean s) = cpfPat (cpfClean s) := by
  unfold matchesDollar
  cases hL : (cpfClean s).getLast? with
  | none => simp
  | some c =>
    by_cases hc : c = '\n'
    · subst hc
      have hne : cpfClean s ≠ [] := by
        intro h0
        rw [h0] at hL
        cases hL
      have := List.getLast?_eq_getLast (cpfClean s) hne
      rw [this] at hL
      injection hL with hL
      exact absurd (hL ▸ List.getLast_mem hne) (cpfClean_no_newline s)
    · simp [hL, hc]

theorem cpfPat_iff (l : List Char) :
    cpfPat l = true ↔ (l.length = 11 ∧ l.all Char.isDigit = true) := by
  simp [cpfPat]

/-- C6: the CPF validator accepts iff the document, after stripping dots,
dashes and whitespace, is exactly 11 digits, not all identical, and both
check digits verify; `123.456.789-09` and `12345678909` are valid and clean
to the same string, `111.111.111-11` is rejected for repeated digits, and
`123.456.789-00` is rejected for a bad check digit. -/
theorem c6_cpf_spec (s : List Char) :
    ((validate_cpf_brazil s).1 = true ↔
      ((cpfClean s).length = 11 ∧ (cpfClean s).all Char.isDigit = true ∧
        (cpfClean s).all (fun c => c == (cpfClean s).headD ' ') = false ∧
        cpfCheck1 (((cpfClean s).take 9).map charToDigit) =
          charToDigit ((cpfClean s).getD 9 '0') ∧
        cpfCheck2 ((((cpfClean s).take 9).map charToDigit) ++
            [cpfCheck1 (((cpfClean s).take 9).map charToDigit)]) =
          charToDigit ((cpfClean s).getD 10 '0'))) ∧
    validate_cpf_brazil "123.456.789-09".data = (true, none) ∧
    validate_cpf_brazil "12345678909".data = (true, none) ∧
    cpfClean "123.456.789-09".data = cpfClean "12345678909".data ∧
    validate_cpf_brazil "111.111.111-11".data =
      (false, some "El CPF no puede tener todos los dígitos iguales") ∧
    validate_cpf_brazil "123.456.789-00".data =
      (false, some "El segundo dígito verificador del CPF no es válido") := by
  refine ⟨?_, by decide, by decide, by decide, by decide, by decide⟩
  have hrw : validate_cpf_brazil s = cpfBody (cpfClean s) := rfl
  rw [hrw]
  unfold cpfBody
  rw [matchesDollar_cpfClean]
  by_cases h : cpfPat (cpfClean s) = true
  · rw [if_pos h]
    obtain ⟨hlen, hdig⟩ := (cpfPat_iff _).mp h
    by_cases hsame :
        (cpfClean s).all (fun c => c == (cpfClean s).headD ' ') = true
    · rw [if_pos hsame]
      constructor
      · intro hh
        exact absurd hh (by simp)
      · rintro ⟨_, _, hs, _, _⟩
        rw [hsame] at hs
        cases hs
    · rw [if_neg hsame]
      dsimp only
      by_cases hc1 : (cpfCheck1 (((cpfClean s).take 9).map charToDigit) ==
          charToDigit ((cpfClean s).getD 9 '0')) = true
      · rw [if_pos hc1]
        by_cases hc2 : (cpfCheck2 ((((cpfClean s).take 9).map charToDigit) ++
            [cpfCheck1 (((cpfClean s).take 9).map charToDigit)]) ==
            charToDigit ((cpfClean s).getD 10 '0')) = true
        · rw [if_pos hc2]
          constructor
          · intro _
            exact ⟨hlen, hdig, Bool.eq_false_iff.mpr hsame,
              beq_iff_eq.mp hc1, beq_iff_eq.mp hc2⟩
          · intro _
            rfl
        · rw [if_neg hc2]
          constructor
          · intro hh
            exact absurd hh (by simp)
          · rintro ⟨_, _, _, _, h2⟩
            exact absurd (beq_iff_eq.mpr h2) hc2
      · rw [if_neg hc1]
        constructor
        · intro hh
          exact absurd hh (by simp)
        · rintro ⟨_, _, _, h1, _⟩
          exact absurd (beq_iff_eq.mpr h1) hc1
  · rw [if_neg h]
    constructor
    · intro hh
      exact absurd hh (by simp)
    · rintro ⟨hlen, hdig, _, _, _⟩
      exact absurd ((cpfPat_iff _).mpr ⟨hlen, hdig⟩) h

/-- C6 witness: the equivalence applied to the concrete valid CPF. -/
theorem c6_cpf_spec_witness : (validate_cpf_brazil "12345678909".data).1 = true :=
  ((c6_cpf_spec "12345678909".data).1).mpr (by decide)

/-- C7 counterexample: for `12345678910` both check digits are wrong, yet the
validator's output carries only the first-check-digit message — the second
failure is not reported, contradicting the claim that each failing check
digit is independently reported. -/
theorem c7_counterexample :
    cpfCheck1 (((cpfClean "12345678910".data).take 9).map charToDigit) ≠
      charToDigit ((cpfClean "12345678910".data).getD 9 '0') ∧
    cpfCheck2 ((((cpfClean "12345678910".data).take 9).map charToDigit) ++
        [cpfCheck1 (((cpfClean "12345678910".data).take 9).map charToDigit)]) ≠
      charToDigit ((cpfClean "12345678910".data).getD 10 '0') ∧
    validate_cpf_brazil "12345678910".data =
      (false, some "El primer dígito verificador del CPF no es válido") := by
  decide

/-- C7 (amended): the CPF validator reports at most one check-digit failure:
when the first check digit is wrong it returns only the first-check error
(the second is never reported); the second check digit — computed from the
first nine digits plus the *computed* first check digit — is checked and
reported only when the first check passes. -/
theorem c7_check_digit_reporting (s : List Char) :
    (matchesDollar cpfPat (cpfClean s) = true →
      (cpfClean s).all (fun c => c == (cpfClean s).headD ' ') = false →
      cpfCheck1 (((cpfClean s).take 9).map charToDigit) ≠
        charToDigit ((cpfClean s).getD 9 '0') →
      validate_cpf_brazil s =
        (false, some "El primer dígito verificador del CPF no es válido")) ∧
    (matchesDollar cpfPat (cpfClean s) = true →
      (cpfClean s).all (fun c => c == (cpfClean s).headD ' ') = false →
      cpfCheck1 (((cpfClean s).take 9).map charToDigit) =
        charToDigit ((cpfClean s).getD 9 '0') →
      cpfCheck2 ((((cpfClean s).take 9).map charToDigit) ++
          [cpfCheck1 (((cpfClean s).take 9).map charToDigit)]) ≠
        charToDigit ((cpfClean s).getD 10 '0') →
      validate_cpf_brazil s =
        (false, some "El segundo dígito verificador del CPF no es válido")) := by
  have hrw : validate_cpf_brazil s = cpfBody (cpfClean s) := rfl
  constructor
  · intro hm hsame hc1
    rw [hrw]
    unfold cpfBody
    rw [if_pos hm, if_neg (Bool.eq_false_iff.mp hsame)]
    dsimp only
    rw [if_neg (fun hb => hc1 (beq_iff_eq.mp hb))]
  · intro hm hsame hc1 hc2
    rw [hrw]
    unfold cpfBody
    rw [if_pos hm, if_neg (Bool.eq_false_iff.mp hsame)]
    dsimp only
    rw [if_pos (beq_iff_eq.mpr hc1), if_neg (fun hb => hc2 (beq_iff_eq.mp hb))]

/-- C7 witness: the first-failure branch at the counterexample input. -/
theorem c7_check_digit_reporting_witness :
    validate_cpf_brazil "12345678910".data =
      (false, some "El primer dígito verificador del CPF no es válido") :=
  (c7_check_digit_reporting "12345678910".data).1 (by decide) (by decide) (by decide)

/-- C8: under an active rule carrying at least one enabled affordability
rule, non-positive monthly income always makes validation fail, and the
raised error contains the dedicated entry with message
"El ingreso mensual debe ser mayor a cero" for that rule, regardless of the
requested amount and of the rule's `max_percentage`. -/
theorem c8_nonpositive_income (cr : CountryRule) (country : Country)
    (doc : List Char) (amt inc : ℚ) (r : ValidationRule)
    (ha : cr.is_active = true) (hr : r ∈ cr.validation_rules)
    (he : r.enabled = true) (hi : inc ≤ 0) :
    validate_country_rules (some cr) country doc amt inc ≠ none ∧
    ∀ e, validate_country_rules (some cr) country doc amt inc = some e →
      ErrorDetail.amountToIncomeRatio r.max_percentage none amt inc incomeMsg ∈
        e.rule_details.errors := by
  have hdetail : evalRule amt inc r =
      some (.amountToIncomeRatio r.max_percentage none amt inc incomeMsg) := by
    unfold evalRule
    rw [if_pos he, if_neg (not_lt.mpr hi)]
  have hmem :
      ErrorDetail.amountToIncomeRatio r.max_percentage none amt inc incomeMsg ∈
        errsOf cr country doc amt inc :=
    List.mem_append_right _ (List.mem_filterMap.mpr ⟨r, hr, hdetail⟩)
  have hne : errsOf cr country doc amt inc ≠ [] := by
    intro hnil
    rw [hnil] at hmem
    cases hmem
  constructor
  · rw [validate_country_rules_active_some ha country doc amt inc hne]
    simp
  · intro e hsome
    rw [validate_country_rules_active_some ha country doc amt inc hne] at hsome
    injection hsome with hsome
    subst hsome
    exact hmem

/-- C8 witness: zero income with an enabled 30% rule fails even for a valid
document and a tiny amount. -/
theorem c8_nonpositive_income_witness :
    validate_country_rules
      (some ⟨.SPAIN, "DNI".data, true, [⟨30, true, none⟩]⟩) .SPAIN
      "12345678Z".data 100 0 ≠ none :=
  (c8_nonpositive_income ⟨.SPAIN, "DNI".data, true, [⟨30, true, none⟩]⟩ .SPAIN
    "12345678Z".data 100 0 ⟨30, true, none⟩ rfl (List.mem_singleton.mpr rfl)
    rfl (le_refl 0)).1

/-- C9: for an enabled rule at positive income, the pass/fail comparison is
performed on the full-precision `requested_amount / monthly_income * 100`,
while the violation record carries its value rounded to two decimals
(together with the rule's max and the raw amount and income). -/
theorem c9_full_precision (amt inc : ℚ) (r : ValidationRule)
    (he : r.enabled = true) (hi : 0 < inc) :
    (evalRule amt inc r = none ↔ amt / inc * 100 ≤ r.max_percentage) ∧
    (r.max_percentage < amt / inc * 100 →
      evalRule amt inc r =
        some (.amountToIncomeRatio r.max_percentage
          (some (pyRound2 (amt / inc * 100))) amt inc
          (pyOr r.error_message
            (defaultAffordMsg r.max_percentage amt inc
              (pyRound2 (amt / inc * 100)))))) := by
  constructor
  · rw [evalRule_eq_none_iff r hi]
    exact ⟨fun h => h he, fun h _ => h⟩
  · intro hp
    exact evalRule_violation he hi hp

/-- C9 witness: `max_percentage = 30`, income 5000 — amount 1000 (20%)
passes, amount 2000 (40%) fails with reported percentage 40 and max 30; with
`max_percentage = 40.0002` and a 40.004% request, the full-precision
comparison fires even though the reported rounded percentage (40.0) does not
exceed the max. -/
theorem c9_full_precision_witness :
    evalRule 1000 5000 (⟨30, true, none⟩ : ValidationRule) = none ∧
    evalRule 2000 5000 (⟨30, true, none⟩ : ValidationRule) =
      some (.amountToIncomeRatio 30 (some 40) 2000 5000
        (pyOr none (defaultAffordMsg 30 2000 5000 40))) ∧
    evalRule 40004 100000 (⟨400002/10000, true, none⟩ : ValidationRule) =
      some (.amountToIncomeRatio (400002/10000) (some 40) 40004 100000
        (pyOr none (defaultAffordMsg (400002/10000) 40004 100000 40))) ∧
    (40 : ℚ) ≤ 400002/10000 := by
  have hround1 : pyRound2 ((2000 : ℚ) / 5000 * 100) = 40 := by
    unfold pyRound2
    norm_num [round_eq]
  have hround2 : pyRound2 ((40004 : ℚ) / 100000 * 100) = 40 := by
    unfold pyRound2
    norm_num [round_eq]
  refine ⟨?_, ?_, ?_, by norm_num⟩
  · exact (c9_full_precision 1000 5000 ⟨30, true, none⟩ rfl
      (by norm_num)).1.mpr (by norm_num)
  · rw [(c9_full_precision 2000 5000 ⟨30, true, none⟩ rfl
      (by norm_num)).2 (by norm_num), hround1]
  · rw [(c9_full_precision 40004 100000 ⟨400002/10000, true, none⟩ rfl
      (by norm_num)).2 (by norm_num), hround2]

theorem dniBody_msg (d : List Char) :
    ((dniBody d).2 = none ↔ (dniBody d).1 = true) := by
  unfold dniBody
  dsimp only
  split_ifs <;> simp

theorem nifBody_msg (d : List Char) :
    ((nifBody d).2 = none ↔ (nifBody d).1 = true) := by
  unfold nifBody
  split_ifs <;> simp

theorem cpfBody_msg (d : List Char) :
    ((cpfBody d).2 = none ↔ (cpfBody d).1 = true) := by
  unfold cpfBody
  dsimp only
  split_ifs <;> simp

theorem curpBody_msg (d : List Char) :
    ((curpBody d).2 = none ↔ (curpBody d).1 = true) := by
  unfold curpBody
  split_ifs <;> simp

theorem italyBody_msg (d : List Char) :
    ((italyBody d).2 = none ↔ (italyBody d).1 = true) := by
  unfold italyBody
  split_ifs <;> simp

theorem cedulaBody_msg (d : List Char) :
    ((cedulaBody d).2 = none ↔ (cedulaBody d).1 = true) := by
  unfold cedulaBody
  split_ifs <;> simp

theorem validatorTable_msg :
    ∀ e ∈ validatorTable, ∀ s : List Char,
      ((e.2 s).2 = none ↔ (e.2 s).1 = true) := by
  intro e he s
  simp only [validatorTable, List.mem_cons, List.not_mem_nil, or_false] at he
  rcases he with rfl | rfl | rfl | rfl | rfl | rfl | rfl | rfl
  · exact dniBody_msg _
  · exact nifBody_msg _
  · exact cpfBody_msg _
  · exact curpBody_msg _
  · exact italyBody_msg _
  · exact cedulaBody_msg _
  · exact cedulaBody_msg _
  · exact cedulaBody_msg _

/-- C10: `validate_document_format` is a total function whose error message
is present exactly when the verdict is invalid, and an all-whitespace
document is rejected exactly like the empty one (with the "documento
requerido" message). -/
theorem c10_total_message (country : Country) (dt doc : List Char) :
    ((validate_document_format country dt doc).2 = none ↔
      (validate_document_format country dt doc).1 = true) ∧
    ((∀ c ∈ doc, isPySpace c = true) →
      validate_document_format country dt doc =
        (false, some "El documento de identidad es requerido") ∧
      validate_document_format country dt doc =
        validate_document_format country dt []) := by
  constructor
  · by_cases hcond : (doc.isEmpty || (pyStrip doc).isEmpty) = true
    · unfold validate_document_format
      rw [if_pos hcond]
      simp
    · have hfalse : (doc.isEmpty || (pyStrip doc).isEmpty) = false :=
        Bool.eq_false_iff.mpr hcond
      unfold validate_document_format
      rw [hfalse, if_neg (by decide)]
      dsimp only
      cases hfind : validatorTable.find? (exactKey country (pyStrip (pyUpper dt))) with
      | some e =>
        exact validatorTable_msg e (List.mem_of_find?_eq_some hfind) (pyStrip doc)
      | none =>
        cases hfb : validatorTable.find? (fallbackKey country (pyStrip (pyUpper dt))) with
        | some e =>
          exact validatorTable_msg e (List.mem_of_find?_eq_some hfb) (pyStrip doc)
        | none =>
          dsimp only
          split_ifs <;> simp
  · intro hsp
    have h0 : doc.dropWhile isPySpace = [] :=
      List.dropWhile_eq_nil_iff.mpr (fun x hx => hsp x hx)
    have hstrip : pyStrip doc = [] := by
      unfold pyStrip
      rw [h0]
      rfl
    have h1 : validate_document_format country dt doc =
        (false, some "El documento de identidad es requerido") := by
      unfold validate_document_format
      rw [if_pos (by rw [hstrip]; simp)]
    exact ⟨h1, h1.trans rfl⟩

/-- C10 witness: a whitespace-only document is rejected like the empty one. -/
theorem c10_total_message_witness :
    validate_document_format .SPAIN "DNI".data "   ".data =
      (false, some "El documento de identidad es requerido") :=
  ((c10_total_message .SPAIN "DNI".data "   ".data).2 (by decide)).1

end Fintech
